import Mathlib

/-!
Shallow embedding of `src/cron/sentiment_fetch.py`, a scheduled client that
loads configuration from the process environment (optionally supplemented by a
`config.env` file), issues one authenticated POST request to
`<base_url>/api/cron/sentiment-data`, classifies the outcome, and reports it
through log lines and the process exit status.

Modelling conventions:
- the process environment is an association list, first binding wins
  (`os.environ` is a map, so keys are unique in practice);
- log output is collected as a list of strings, one per `logger` call, in
  emission order (the timestamp/level prefix added by the logging formatter is
  not modelled);
- the single `requests.post` call is represented by an `HttpOutcome` value
  describing what the network produced, exactly as the script's `except`
  clauses distinguish the cases;
- `response.json()` is represented by an `Except String Json` field: either a
  decoded JSON value or a `json.JSONDecodeError` message (the script imports
  the standard-library `json`, whose `JSONDecodeError` is a `ValueError` and
  not a `requests` `RequestException`, so a decode failure reaches the
  dedicated `except json.JSONDecodeError` clause);
- `sys.exit(n)` raises `SystemExit`, which is not an `Exception` and hence is
  not caught by the script's `except Exception` boundaries; it is modelled as
  the `PyError.sysExit` variant, while the `ValueError` that `int()` can raise
  is `PyError.valueError`.
-/

namespace SentimentCron

/-- Decoded JSON values as produced by Python `json` decoding.  Numbers are
restricted to integers: the modelled responses carry integer counts, and no
claim depends on float payloads. -/
inductive Json where
  | null
  | bool (b : Bool)
  | num (n : Int)
  | str (s : String)
  | arr (elems : List Json)
  | obj (fields : List (String × Json))

mutual

/-- Python `str()` rendering of a decoded JSON value, as interpolated into the
diagnostic log lines (container rendering approximates Python `repr` without
the quoting of string elements; no claim depends on container rendering). -/
def pyStr : Json → String
  | .null => "None"
  | .bool true => "True"
  | .bool false => "False"
  | .num n => toString n
  | .str s => s
  | .arr elems => "[" ++ pyStrElems elems ++ "]"
  | .obj fields => "\x7b" ++ pyStrFields fields ++ "\x7d"

/-- Comma-separated rendering of JSON array elements. -/
def pyStrElems : List Json → String
  | [] => ""
  | [j] => pyStr j
  | j :: rest => pyStr j ++ ", " ++ pyStrElems rest

/-- Comma-separated rendering of JSON object fields. -/
def pyStrFields : List (String × Json) → String
  | [] => ""
  | [(k, v)] => k ++ ": " ++ pyStr v
  | (k, v) :: rest => k ++ ": " ++ pyStr v ++ ", " ++ pyStrFields rest

end

/-- Python type names, used in the `AttributeError` message raised by calling
`.get` on a decoded value that is not a dict. -/
def pyTypeName : Json → String
  | .null => "NoneType"
  | .bool _ => "bool"
  | .num _ => "int"
  | .str _ => "str"
  | .arr _ => "list"
  | .obj _ => "dict"

/-- Python `dict.get` on a decoded JSON object's field list.  Python's `json`
builds the dict by insertion, so a later duplicate key wins: look up in the
reversed list. -/
def jsonGet (fields : List (String × Json)) (key : String) : Option Json :=
  List.lookup key fields.reverse

/-- Rendering of `result.get(key, "N/A")` as interpolated into a log line. -/
def displayField (fields : List (String × Json)) (key : String) : String :=
  match jsonGet fields key with
  | none => "N/A"
  | some v => pyStr v

/-- The process environment: association list of variable names to values,
first binding wins. -/
abbrev Env := List (String × String)

/-- `os.environ` / `os.getenv` lookup. -/
def envGet : Env → String → Option String
  | [], _ => none
  | (k, v) :: rest, key => if k = key then some v else envGet rest key

/-- Characters stripped by Python `str.strip()` (ASCII whitespace; the claims
do not exercise the additional Unicode space characters Python also strips). -/
def isPySpace (c : Char) : Bool :=
  c == ' ' || c == '\t' || c == '\n' || c == '\r' || c == '\x0b' || c == '\x0c'

/-- Python `str.strip()`. -/
def pyStrip (s : String) : String :=
  String.mk (((s.data.dropWhile isPySpace).reverse.dropWhile isPySpace).reverse)

/-- Python `base_url.rstrip('/')`: remove every trailing slash. -/
def pyRstripSlashes (s : String) : String :=
  String.mk ((s.data.reverse.dropWhile (fun c => c == '/')).reverse)

/-- Python `line.startswith('#')`. -/
def startsWithHash (s : String) : Bool :=
  s.data.head? == some '#'

/-- Python `'=' in line`. -/
def containsEq (s : String) : Bool :=
  s.data.contains '='

/-- Python `line.split('=', 1)` for a line containing `=`: the part before the
first `=` and the part after it. -/
def splitFirstEq (s : String) : String × String :=
  (String.mk (s.data.takeWhile (fun c => c != '=')),
   String.mk ((s.data.dropWhile (fun c => c != '=')).drop 1))

/-- Digits of a decimal literal to a natural number. -/
def digitsToNat (l : List Char) : Nat :=
  l.foldl (fun acc c => acc * 10 + (c.toNat - 48)) 0

/-- Python `int()` on a string: optional surrounding whitespace, optional
sign, then decimal digits; `none` models the `ValueError` raised otherwise
(digit-group underscores and non-ASCII digits, which Python also accepts, are
not modelled; no claim exercises them). -/
def pyInt (s : String) : Option Int :=
  let t := (pyStrip s).data
  let neg := t.head? == some '-'
  let core := if t.head? == some '-' || t.head? == some '+' then t.drop 1 else t
  if !core.isEmpty && core.all Char.isDigit then
    some (if neg then -(digitsToNat core : Int) else (digitsToNat core : Int))
  else
    none

/-- The configuration dict returned by `load_config`. -/
structure Config where
  base_url : String
  cron_secret : String
  timeout : Int
deriving DecidableEq, Repr

/-- Control-flow effects `load_config` can have besides returning a value:
`sys.exit` (which raises `SystemExit`, not an `Exception`) and the
`ValueError` raised by `int()` on an invalid literal. -/
inductive PyError where
  | sysExit (code : Nat)
  | valueError (msg : String)
deriving DecidableEq, Repr

/-- One iteration of the `config.env` loop of `load_config`: strip the line,
skip it when it is blank, starts with `#`, or has no `=`; otherwise split at
the first `=`, strip key and value, and set the key into the environment only
when it is not already present. -/
def applyFileLine (env : Env) (rawLine : String) : Env :=
  let line := pyStrip rawLine
  if !(line = "") && !startsWithHash line && containsEq line then
    let key := pyStrip (splitFirstEq line).1
    let value := pyStrip (splitFirstEq line).2
    match envGet env key with
    | none => env ++ [(key, value)]
    | some _ => env
  else env

/-- Loading `config.env` into the environment (`none`: the file does not
exist, so the loop body never runs). -/
def applyConfigFile (env : Env) (file : Option (List String)) : Env :=
  match file with
  | none => env
  | some lines => lines.foldl applyFileLine env

/-- The log lines `load_config` emits before reading variables. -/
def configFileLogs (file : Option (List String)) : List String :=
  match file with
  | none => []
  | some _ => ["Loading config from config.env"]

/-- `load_config`: merge the optional `config.env` file into the environment
without overriding existing variables, then require `BASE_URL` and
`CRON_SECRET` (Python `if not base_url` also rejects the empty string),
normalize the base URL with `rstrip('/')`, and convert `REQUEST_TIMEOUT`
(default `"300"`) with `int()`. -/
def load_config (env : Env) (file : Option (List String)) :
    Except PyError Config × List String :=
  if (envGet (applyConfigFile env file) "BASE_URL").getD "" = "" then
    (.error (.sysExit 1),
     configFileLogs file ++ ["BASE_URL environment variable is required"])
  else if (envGet (applyConfigFile env file) "CRON_SECRET").getD "" = "" then
    (.error (.sysExit 1),
     configFileLogs file ++ ["CRON_SECRET environment variable is required"])
  else
    match pyInt ((envGet (applyConfigFile env file) "REQUEST_TIMEOUT").getD "300") with
    | none =>
      (.error (.valueError ("invalid literal for int() with base 10: " ++
        (envGet (applyConfigFile env file) "REQUEST_TIMEOUT").getD "300")),
       configFileLogs file)
    | some t =>
      (.ok { base_url := pyRstripSlashes ((envGet (applyConfigFile env file) "BASE_URL").getD "")
           , cron_secret := (envGet (applyConfigFile env file) "CRON_SECRET").getD ""
           , timeout := t },
       configFileLogs file)

/-- Outcome of the single `requests.post` call, as the `except` clauses of
`fetch_sentiment_data` distinguish the cases.  For a response, `parsed` is
what `response.json()` yields: a decoded value, or the message of the
`json.JSONDecodeError` it raises. -/
inductive HttpOutcome where
  | response (status : Nat) (body : String) (parsed : Except String Json)
  | timeout
  | transportError (msg : String)
  | unexpectedError (msg : String)

/-- The keyword arguments of the `requests.post` call. -/
structure RequestParams where
  url : String
  contentType : String
  authorization : String
  body : String
  timeout : Int
deriving Repr

/-- The parameters the script passes to `requests.post`. -/
def requestParamsOf (c : Config) : RequestParams :=
  { url := c.base_url ++ "/api/cron/sentiment-data"
  , contentType := "application/json"
  , authorization := "Bearer " ++ c.cron_secret
  , body := "\x7b\x7d"
  , timeout := c.timeout }

/-- `fetch_sentiment_data`: classify the outcome of the one request.  A 200
response has its body decoded; decode success logs the banner and then the
three optional fields (calling `.get` on a non-dict value raises an
`AttributeError` caught by the final `except Exception`, after the banner was
already logged); decode failure reaches the `except json.JSONDecodeError`
clause; a non-200 status logs the status and raw body; timeout, transport
error, and any other exception each take their own `except` clause.  Every
path other than a decoded 200 object returns `false`. -/
def fetch_sentiment_data (config : Config) (outcome : HttpOutcome) :
    Bool × List String :=
  match outcome with
  | .response status body parsed =>
    if status = 200 then
      match parsed with
      | .ok result =>
        match result with
        | .obj fields =>
          (true,
           ["🤖 Starting sentiment data fetch from " ++ (config.base_url ++ "/api/cron/sentiment-data"),
            "📡 Response status: " ++ toString status,
            "✅ Sentiment data fetch successful!",
            "📊 Data points: " ++ displayField fields "dataPoints",
            "📱 Top posts: " ++ displayField fields "topPosts",
            "⏰ Timestamp: " ++ displayField fields "timestamp"])
        | other =>
          (false,
           ["🤖 Starting sentiment data fetch from " ++ (config.base_url ++ "/api/cron/sentiment-data"),
            "📡 Response status: " ++ toString status,
            "✅ Sentiment data fetch successful!",
            "❌ Unexpected error: " ++ pyTypeName other ++ " object has no attribute get"])
      | .error msg =>
        (false,
         ["🤖 Starting sentiment data fetch from " ++ (config.base_url ++ "/api/cron/sentiment-data"),
          "📡 Response status: " ++ toString status,
          "❌ Failed to parse JSON response: " ++ msg])
    else
      (false,
       ["🤖 Starting sentiment data fetch from " ++ (config.base_url ++ "/api/cron/sentiment-data"),
        "📡 Response status: " ++ toString status,
        "❌ Request failed with status " ++ toString status,
        "Response: " ++ body])
  | .timeout =>
    (false,
     ["🤖 Starting sentiment data fetch from " ++ (config.base_url ++ "/api/cron/sentiment-data"),
      "⏰ Request timed out after " ++ toString config.timeout ++ " seconds"])
  | .transportError msg =>
    (false,
     ["🤖 Starting sentiment data fetch from " ++ (config.base_url ++ "/api/cron/sentiment-data"),
      "❌ Request failed: " ++ msg])
  | .unexpectedError msg =>
    (false,
     ["🤖 Starting sentiment data fetch from " ++ (config.base_url ++ "/api/cron/sentiment-data"),
      "❌ Unexpected error: " ++ msg])

/-- The fetch seen against a queue of outcomes prepared for successive
`requests.post` calls; each call consumes the front of the queue.  The script
performs no retry, so at most the front is ever consumed.  An empty queue
yields failure with no attempt (never reached: a real call always produces an
outcome). -/
def fetchAttempts (c : Config) (queue : List HttpOutcome) :
    (Bool × List String) × List HttpOutcome :=
  match queue with
  | [] => ((false, []), [])
  | o :: rest => (fetch_sentiment_data c o, rest)

/-- Python `"=" * 60`, the banner separator. -/
def bannerSep : String := String.mk (List.replicate 60 '=')

/-- The start banner of `main` (`now` stands for `datetime.now().isoformat()`). -/
def startBanner (now : String) : List String :=
  [bannerSep,
   "🕘 DAILY SENTIMENT ANALYSIS CRON JOB STARTED",
   "⏰ Current time: " ++ now,
   bannerSep]

/-- `main`: log the start banner, load the configuration, run the fetch, and
translate the result to the process exit status.  `sys.exit` from
`load_config` raises `SystemExit`, which the `except Exception` boundary does
not catch, so its code propagates; the `ValueError` from `int()` is caught
there and logged as a fatal error with exit status 1. -/
def main (now : String) (env : Env) (file : Option (List String))
    (outcome : HttpOutcome) : Nat × List String :=
  match load_config env file with
  | (.error (.sysExit code), logs) =>
    (code, startBanner now ++ logs)
  | (.error (.valueError msg), logs) =>
    (1, startBanner now ++ logs ++
      ["❌ Fatal error in cron job: " ++ msg, bannerSep])
  | (.ok config, logs) =>
    if (fetch_sentiment_data config outcome).1 then
      (0, startBanner now ++ logs ++
        ["🔧 Configuration loaded - Base URL: " ++ config.base_url] ++
        (fetch_sentiment_data config outcome).2 ++
        ["✅ Sentiment analysis cron job completed successfully", bannerSep])
    else
      (1, startBanner now ++ logs ++
        ["🔧 Configuration loaded - Base URL: " ++ config.base_url] ++
        (fetch_sentiment_data config outcome).2 ++
        ["❌ Sentiment analysis cron job failed", bannerSep])

/-- Modelled from the spec, for comparison only: base-URL normalization as the
spec words it, removing any single trailing slash (one at most).  The
behavioural definition is `pyRstripSlashes` above, taken from the source. -/
def stripOneTrailingSlash (s : String) : String :=
  if s.data.getLast? == some '/' then String.mk s.data.dropLast else s

/-- A binding present in the environment survives appending further bindings:
lookup takes the first match. -/
theorem envGet_append_of_some {env : Env} (extra : Env) {k v : String}
    (h : envGet env k = some v) : envGet (env ++ extra) k = some v := by
  induction env with
  | nil => simp [envGet] at h
  | cons p rest ih =>
    obtain ⟨a, b⟩ := p
    by_cases hk : a = k
    · simpa [envGet, hk] using h
    · simp only [envGet, if_neg hk] at h
      simpa [envGet, hk] using ih h

/-- One `config.env` line never changes the value of a variable that is
already set: it either skips the line or appends a binding for an absent key. -/
theorem envGet_applyFileLine_of_some {env : Env} {line k v : String}
    (h : envGet env k = some v) : envGet (applyFileLine env line) k = some v := by
  simp only [applyFileLine]
  split
  · split
    · exact envGet_append_of_some _ h
    · exact h
  · exact h

/-- The whole `config.env` loop never changes the value of a variable that is
already set in the environment. -/
theorem envGet_foldl_of_some {k v : String} :
    ∀ (lines : List String) (env : Env), envGet env k = some v →
      envGet (lines.foldl applyFileLine env) k = some v := by
  intro lines
  induction lines with
  | nil => intro env h; simpa using h
  | cons l rest ih =>
    intro env h
    exact ih _ (envGet_applyFileLine_of_some h)

/-- Loading the config file never changes the value of a variable that is
already set in the environment. -/
theorem envGet_applyConfigFile_of_some {env : Env} {file : Option (List String)}
    {k v : String} (h : envGet env k = some v) :
    envGet (applyConfigFile env file) k = some v := by
  cases file with
  | none => simpa [applyConfigFile] using h
  | some lines => exact envGet_foldl_of_some lines env h

/-- When `BASE_URL` or `CRON_SECRET` is falsy (absent or empty) after the file
merge, `load_config` calls `sys.exit(1)` after logging which variable is
missing. -/
theorem load_config_exits_of_falsy (env : Env) (file : Option (List String))
    (h : (envGet (applyConfigFile env file) "BASE_URL").getD "" = "" ∨
         (envGet (applyConfigFile env file) "CRON_SECRET").getD "" = "") :
    ∃ logs, load_config env file = (.error (.sysExit 1), logs) ∧
      ("BASE_URL environment variable is required" ∈ logs ∨
       "CRON_SECRET environment variable is required" ∈ logs) := by
  by_cases hb : (envGet (applyConfigFile env file) "BASE_URL").getD "" = ""
  · exact ⟨configFileLogs file ++ ["BASE_URL environment variable is required"],
      by simp [load_config, hb], by simp⟩
  · have hc : (envGet (applyConfigFile env file) "CRON_SECRET").getD "" = "" :=
      h.resolve_left hb
    exact ⟨configFileLogs file ++ ["CRON_SECRET environment variable is required"],
      by simp [load_config, hb, hc], by simp⟩

/-- When `load_config` does not return a configuration, `main` never consults
the network outcome, and its exit status is the `sys.exit` code (`SystemExit`
propagates) respectively 1 (the `ValueError` is caught as a fatal error). -/
theorem main_of_load_error (now : String) (env : Env) (file : Option (List String))
    {e : PyError} {logs : List String}
    (h : load_config env file = (.error e, logs)) :
    (∀ o o', main now env file o = main now env file o') ∧
    (∀ o, (main now env file o).1 =
      (match e with | .sysExit c => c | .valueError _ => 1)) := by
  cases e <;> simp [main, h]

/-- `load_config` returns a configuration, exits with `sys.exit(1)`, or raises
the `ValueError` of `int()` — no other outcome, and no other exit code. -/
theorem load_config_shape (env : Env) (file : Option (List String)) :
    (∃ c logs, load_config env file = (.ok c, logs)) ∨
    (∃ logs, load_config env file = (.error (.sysExit 1), logs)) ∨
    (∃ m logs, load_config env file = (.error (.valueError m), logs)) := by
  unfold load_config
  split
  · exact .inr (.inl ⟨_, rfl⟩)
  · split
    · exact .inr (.inl ⟨_, rfl⟩)
    · split
      · exact .inr (.inr ⟨_, _, rfl⟩)
      · exact .inl ⟨_, _, rfl⟩

/-- Claim C2: the process exit status is 0 exactly when `load_config` returned
a configuration and the fetch client reported success, and 1 on any failure
(missing configuration via `sys.exit(1)`, any fetch failure, or the
`ValueError` caught at the outermost boundary). -/
theorem exit_status_iff_fetch_success (now : String) (env : Env)
    (file : Option (List String)) (o : HttpOutcome) :
    (main now env file o).1 =
      (match (load_config env file).1 with
       | .ok c => if (fetch_sentiment_data c o).1 then 0 else 1
       | .error _ => 1) := by
  obtain ⟨c, logs, hc⟩ | ⟨logs, hc⟩ | ⟨m, logs, hc⟩ := load_config_shape env file
  · by_cases hf : (fetch_sentiment_data c o).1 = true <;> simp [main, hc, hf]
  · simp [main, hc]
  · simp [main, hc]

/-- Claim C3: when `BASE_URL` or `CRON_SECRET` is absent after config loading,
`load_config` logs the missing variable and terminates with `sys.exit(1)`; the
run exits with status 1 and no network request is issued (the run is
independent of the HTTP outcome). -/
theorem missing_required_var_fail_fast (now : String) (env : Env)
    (file : Option (List String))
    (h : envGet (applyConfigFile env file) "BASE_URL" = none ∨
         envGet (applyConfigFile env file) "CRON_SECRET" = none) :
    (∃ logs, load_config env file = (.error (.sysExit 1), logs) ∧
      ("BASE_URL environment variable is required" ∈ logs ∨
       "CRON_SECRET environment variable is required" ∈ logs)) ∧
    (∀ o, (main now env file o).1 = 1) ∧
    (∀ o o', main now env file o = main now env file o') := by
  have hfal : (envGet (applyConfigFile env file) "BASE_URL").getD "" = "" ∨
      (envGet (applyConfigFile env file) "CRON_SECRET").getD "" = "" := by
    rcases h with h | h
    · exact .inl (by simp [h])
    · exact .inr (by simp [h])
  obtain ⟨logs, hl, hm⟩ := load_config_exits_of_falsy env file hfal
  have hmain := main_of_load_error now env file hl
  exact ⟨⟨logs, hl, hm⟩, fun o => by simpa using hmain.2 o, hmain.1⟩

/-- Claim C3 witness: with only `CRON_SECRET` set and no config file, the run
exits with status 1. -/
theorem missing_required_var_fail_fast_witness :
    envGet (applyConfigFile [("CRON_SECRET", "s")] none) "BASE_URL" = none ∧
    (main "T" [("CRON_SECRET", "s")] none .timeout).1 = 1 := by
  have h := missing_required_var_fail_fast "T" [("CRON_SECRET", "s")] none
    (.inl (by decide))
  exact ⟨by decide, h.2.1 .timeout⟩

/-- Claim C9: a required variable that is set to the empty string is treated
exactly like an absent one (Python `if not base_url`): the missing-variable
error is logged, the process exits with status 1, and no network request is
issued. -/
theorem empty_required_var_like_absent (now : String) (env : Env)
    (file : Option (List String))
    (h : envGet (applyConfigFile env file) "BASE_URL" = some "" ∨
         envGet (applyConfigFile env file) "CRON_SECRET" = some "") :
    (∃ logs, load_config env file = (.error (.sysExit 1), logs) ∧
      ("BASE_URL environment variable is required" ∈ logs ∨
       "CRON_SECRET environment variable is required" ∈ logs)) ∧
    (∀ o, (main now env file o).1 = 1) ∧
    (∀ o o', main now env file o = main now env file o') := by
  have hfal : (envGet (applyConfigFile env file) "BASE_URL").getD "" = "" ∨
      (envGet (applyConfigFile env file) "CRON_SECRET").getD "" = "" := by
    rcases h with h | h
    · exact .inl (by simp [h])
    · exact .inr (by simp [h])
  obtain ⟨logs, hl, hm⟩ := load_config_exits_of_falsy env file hfal
  have hmain := main_of_load_error now env file hl
  exact ⟨⟨logs, hl, hm⟩, fun o => by simpa using hmain.2 o, hmain.1⟩

/-- Claim C9 witness: with `BASE_URL` set to the empty string, the run exits
with status 1. -/
theorem empty_required_var_like_absent_witness :
    envGet (applyConfigFile [("BASE_URL", ""), ("CRON_SECRET", "s")] none) "BASE_URL"
      = some "" ∧
    (main "T" [("BASE_URL", ""), ("CRON_SECRET", "s")] none .timeout).1 = 1 := by
  have h := empty_required_var_like_absent "T" [("BASE_URL", ""), ("CRON_SECRET", "s")]
    none (.inl (by decide))
  exact ⟨by decide, h.2.1 .timeout⟩

/-- Claim C4: the `config.env` loop never overrides a variable that is already
present in the environment — every pre-existing entry keeps its value — and
when both the environment and the file define `BASE_URL`, the environment's
value (normalized) is the base URL of the resulting configuration. -/
theorem env_precedence_over_file (env : Env) (lines : List String) :
    (∀ k v, envGet env k = some v →
      envGet (applyConfigFile env (some lines)) k = some v) ∧
    (∀ u, envGet env "BASE_URL" = some u →
      ∀ c logs, load_config env (some lines) = (.ok c, logs) →
        c.base_url = pyRstripSlashes u) := by
  refine ⟨fun k v h => envGet_applyConfigFile_of_some h, ?_⟩
  intro u hu c logs h
  have h2 : envGet (applyConfigFile env (some lines)) "BASE_URL" = some u :=
    envGet_applyConfigFile_of_some hu
  unfold load_config at h
  rw [h2] at h
  simp only [Option.getD_some] at h
  split at h
  · simp at h
  · split at h
    · simp at h
    · split at h
      · simp at h
      · simp only [Prod.mk.injEq, Except.ok.injEq] at h
        rw [← h.1]

/-- Claim C4 witness: with `BASE_URL` set in both the environment and the
config file, the environment's value survives the merge and is the configured
base URL. -/
theorem env_precedence_over_file_witness :
    envGet (applyConfigFile [("BASE_URL", "http://env.example"), ("CRON_SECRET", "s")]
      (some ["BASE_URL=http://file.example"])) "BASE_URL" = some "http://env.example" ∧
    ({ base_url := "http://env.example", cron_secret := "s", timeout := 300 } : Config).base_url
      = pyRstripSlashes "http://env.example" := by
  have h := env_precedence_over_file
    [("BASE_URL", "http://env.example"), ("CRON_SECRET", "s")]
    ["BASE_URL=http://file.example"]
  exact ⟨h.1 "BASE_URL" "http://env.example" rfl,
    h.2 "http://env.example" rfl
      { base_url := "http://env.example", cron_secret := "s", timeout := 300 }
      ["Loading config from config.env"] rfl⟩

/-- Claim C10: with `BASE_URL` and `CRON_SECRET` both truthy but
`REQUEST_TIMEOUT` set to a string `int()` rejects, `load_config` raises the
`ValueError`, which only the outermost boundary of `main` catches: a fatal
error is logged, the process exits with status 1, and no network request is
issued (the run is independent of the HTTP outcome). -/
theorem invalid_timeout_fatal (now : String) (env : Env)
    (file : Option (List String)) (s : String)
    (hb : (envGet (applyConfigFile env file) "BASE_URL").getD "" ≠ "")
    (hc : (envGet (applyConfigFile env file) "CRON_SECRET").getD "" ≠ "")
    (ht : envGet (applyConfigFile env file) "REQUEST_TIMEOUT" = some s)
    (hp : pyInt s = none) :
    load_config env file =
      (.error (.valueError ("invalid literal for int() with base 10: " ++ s)),
       configFileLogs file) ∧
    (∀ o, (main now env file o).1 = 1) ∧
    (∀ o, ("❌ Fatal error in cron job: " ++
      ("invalid literal for int() with base 10: " ++ s)) ∈ (main now env file o).2) ∧
    (∀ o o', main now env file o = main now env file o') := by
  have hl : load_config env file =
      (.error (.valueError ("invalid literal for int() with base 10: " ++ s)),
       configFileLogs file) := by
    simp [load_config, hb, hc, ht, hp]
  have hmain := main_of_load_error now env file hl
  refine ⟨hl, fun o => by simpa using hmain.2 o, fun o => ?_, hmain.1⟩
  simp [main, hl]

/-- Claim C10 witness: `REQUEST_TIMEOUT=abc` makes the run log a fatal error
and exit with status 1. -/
theorem invalid_timeout_fatal_witness :
    (main "T" [("BASE_URL", "http://x"), ("CRON_SECRET", "s"), ("REQUEST_TIMEOUT", "abc")]
      none .timeout).1 = 1 ∧
    ("❌ Fatal error in cron job: " ++ ("invalid literal for int() with base 10: " ++ "abc")) ∈
      (main "T" [("BASE_URL", "http://x"), ("CRON_SECRET", "s"), ("REQUEST_TIMEOUT", "abc")]
        none .timeout).2 := by
  have h := invalid_timeout_fatal "T"
    [("BASE_URL", "http://x"), ("CRON_SECRET", "s"), ("REQUEST_TIMEOUT", "abc")]
    none "abc" (by decide) (by decide) (by decide) (by decide)
  exact ⟨h.2.1 .timeout, h.2.2.1 .timeout⟩

/-- Claim C8: the configured timeout defaults to 300 when `REQUEST_TIMEOUT` is
absent, is otherwise the supplied integer with no range validation (zero and
negative values are accepted unchanged by part two, which puts no bound on
`n`), and is the timeout passed to `requests.post`. -/
theorem request_timeout_configuration (env : Env) (file : Option (List String)) :
    (∀ c logs, envGet (applyConfigFile env file) "REQUEST_TIMEOUT" = none →
      load_config env file = (.ok c, logs) → c.timeout = 300) ∧
    (∀ s n c logs, envGet (applyConfigFile env file) "REQUEST_TIMEOUT" = some s →
      pyInt s = some n →
      load_config env file = (.ok c, logs) → c.timeout = n) ∧
    (∀ c, (requestParamsOf c).timeout = c.timeout) := by
  refine ⟨?_, ?_, fun c => rfl⟩
  · intro c logs ht h
    unfold load_config at h
    rw [ht] at h
    simp only [Option.getD_none] at h
    split at h
    · simp at h
    · split at h
      · simp at h
      · split at h
        · simp at h
        · rename_i t heq
          have h300 : pyInt "300" = some 300 := by decide
          rw [h300] at heq
          simp only [Option.some.injEq] at heq
          simp only [Prod.mk.injEq, Except.ok.injEq] at h
          rw [← h.1]
          exact heq.symm
  · intro s n c logs ht hp h
    unfold load_config at h
    rw [ht] at h
    simp only [Option.getD_some] at h
    split at h
    · simp at h
    · split at h
      · simp at h
      · split at h
        · simp at h
        · rename_i t heq
          rw [hp] at heq
          simp only [Option.some.injEq] at heq
          simp only [Prod.mk.injEq, Except.ok.injEq] at h
          rw [← h.1]
          exact heq.symm

/-- Claim C8 witness: an absent `REQUEST_TIMEOUT` yields timeout 300, and
`REQUEST_TIMEOUT=-7` yields timeout -7 (no range validation). -/
theorem request_timeout_configuration_witness :
    ({ base_url := "http://x", cron_secret := "s", timeout := 300 } : Config).timeout = 300 ∧
    ({ base_url := "http://x", cron_secret := "s", timeout := -7 } : Config).timeout = -7 := by
  have h1 := (request_timeout_configuration
    [("BASE_URL", "http://x"), ("CRON_SECRET", "s")] none).1
    { base_url := "http://x", cron_secret := "s", timeout := 300 } [] (by decide) rfl
  have h2 := (request_timeout_configuration
    [("BASE_URL", "http://x"), ("CRON_SECRET", "s"), ("REQUEST_TIMEOUT", "-7")] none).2.1
    "-7" (-7) { base_url := "http://x", cron_secret := "s", timeout := -7 } []
    (by decide) (by decide) rfl
  exact ⟨h1, h2⟩

/-- Dropping leading slashes never leaves a slash at the head. -/
theorem head?_dropWhile_slash (l : List Char) :
    (l.dropWhile (fun c => c == '/')).head? ≠ some '/' := by
  induction l with
  | nil => simp
  | cons a rest ih =>
    rw [List.dropWhile_cons]
    by_cases ha : a = '/'
    · simpa [ha] using ih
    · simp [ha]

/-- The normalized base URL never ends in a slash. -/
theorem pyRstripSlashes_no_trailing (s : String) :
    (pyRstripSlashes s).data.getLast? ≠ some '/' := by
  show ((s.data.reverse.dropWhile (fun c => c == '/')).reverse).getLast? ≠ some '/'
  rw [List.getLast?_reverse]
  exact head?_dropWhile_slash _

/-- Claim C5 counterexample: with `BASE_URL=http://example.com//` (two
trailing slashes) the code strips both, while removing at most one trailing
slash — what the claim states — would leave `http://example.com/`. -/
theorem strip_single_slash_counterexample :
    (load_config [("BASE_URL", "http://example.com//"), ("CRON_SECRET", "s")] none).1 =
      .ok { base_url := "http://example.com", cron_secret := "s", timeout := 300 } ∧
    stripOneTrailingSlash "http://example.com//" = "http://example.com/" ∧
    "http://example.com" ≠ "http://example.com/" :=
  ⟨rfl, rfl, by decide⟩

/-- Claim C5 (amended): the configured base URL is the raw value with ALL
trailing slashes removed (for an input with a single trailing slash exactly
that slash is removed), the request URL is the normalized base followed by
`/api/cron/sentiment-data`, and the normalized base never ends in a slash, so
no double slash arises. -/
theorem base_url_normalization (env : Env) (file : Option (List String))
    (c : Config) (logs : List String)
    (h : load_config env file = (.ok c, logs)) :
    c.base_url = pyRstripSlashes ((envGet (applyConfigFile env file) "BASE_URL").getD "") ∧
    (requestParamsOf c).url = c.base_url ++ "/api/cron/sentiment-data" ∧
    c.base_url.data.getLast? ≠ some '/' := by
  have hb : c.base_url =
      pyRstripSlashes ((envGet (applyConfigFile env file) "BASE_URL").getD "") := by
    unfold load_config at h
    split at h
    · simp at h
    · split at h
      · simp at h
      · split at h
        · simp at h
        · simp only [Prod.mk.injEq, Except.ok.injEq] at h
          rw [← h.1]
  exact ⟨hb, rfl, hb ▸ pyRstripSlashes_no_trailing _⟩

/-- Claim C5 witness: `BASE_URL=http://example.com/` yields the request URL
`http://example.com/api/cron/sentiment-data`, with no double slash. -/
theorem base_url_normalization_witness :
    ({ base_url := "http://example.com", cron_secret := "s", timeout := 300 } : Config).base_url
      = pyRstripSlashes ((envGet (applyConfigFile
          [("BASE_URL", "http://example.com/"), ("CRON_SECRET", "s")] none) "BASE_URL").getD "") ∧
    (requestParamsOf { base_url := "http://example.com", cron_secret := "s", timeout := 300 }).url
      = "http://example.com" ++ "/api/cron/sentiment-data" := by
  have h := base_url_normalization
    [("BASE_URL", "http://example.com/"), ("CRON_SECRET", "s")] none
    { base_url := "http://example.com", cron_secret := "s", timeout := 300 } [] rfl
  exact ⟨h.1, h.2.1⟩

/-- Claim C1 (amended): the fetch returns success exactly when the status is
200 and the body decodes as a JSON object (a decoded non-object value hits the
`AttributeError` of `.get` and fails); for any present status other than 200
it returns failure and logs the status code and the raw body. -/
theorem response_classification (c : Config) (status : Nat) (body : String)
    (parsed : Except String Json) :
    ((fetch_sentiment_data c (.response status body parsed)).1 = true ↔
      (status = 200 ∧ ∃ fields, parsed = .ok (.obj fields))) ∧
    (status ≠ 200 →
      (fetch_sentiment_data c (.response status body parsed)).1 = false ∧
      ("❌ Request failed with status " ++ toString status) ∈
        (fetch_sentiment_data c (.response status body parsed)).2 ∧
      ("Response: " ++ body) ∈
        (fetch_sentiment_data c (.response status body parsed)).2) := by
  constructor
  · by_cases h : status = 200
    · cases parsed with
      | error m => simp [fetch_sentiment_data, h]
      | ok j => cases j <;> simp [fetch_sentiment_data, h]
    · simp [fetch_sentiment_data, h]
  · intro h
    simp [fetch_sentiment_data, h]

/-- Claim C1 counterexample: a 200 response whose body decodes as the JSON
array `[1, 2]` — a successful parse — still returns failure, refuting success
iff (status 200 and body parses as JSON). -/
theorem response_classification_counterexample :
    ¬ (((fetch_sentiment_data
          { base_url := "http://example.com", cron_secret := "s", timeout := 300 }
          (.response 200 "[1, 2]" (.ok (.arr [.num 1, .num 2])))).1 = true) ↔
        (200 = 200 ∧
          (Except.ok (Json.arr [Json.num 1, Json.num 2]) : Except String Json).isOk = true)) := by
  intro h
  exact absurd (h.mpr ⟨rfl, rfl⟩) (by decide)

/-- Claim C1 witness: a 500 response with body `server error` fails and logs
the status code and the raw body. -/
theorem response_classification_witness :
    (fetch_sentiment_data { base_url := "http://example.com", cron_secret := "s", timeout := 300 }
      (.response 500 "server error" (.error "Expecting value"))).1 = false ∧
    ("❌ Request failed with status " ++ toString 500) ∈
      (fetch_sentiment_data { base_url := "http://example.com", cron_secret := "s", timeout := 300 }
        (.response 500 "server error" (.error "Expecting value"))).2 := by
  have h := response_classification
    { base_url := "http://example.com", cron_secret := "s", timeout := 300 }
    500 "server error" (.error "Expecting value")
  exact ⟨(h.2 (by decide)).1, (h.2 (by decide)).2.1⟩

/-- Two strings built by appending to prefixes that differ at character index
`n` are never equal. -/
theorem append_ne_append_at (n : Nat) {a b : String} (m1 m2 : String)
    (hla : n < a.data.length) (hlb : n < b.data.length)
    (hne : a.data[n]? ≠ b.data[n]?) : a ++ m1 ≠ b ++ m2 := by
  intro h
  apply hne
  have hd : (a ++ m1).data = (b ++ m2).data := congrArg String.data h
  rw [String.data_append, String.data_append] at hd
  have h2 := congrArg (fun l => l[n]?) hd
  simpa [List.getElem?_append_left hla, List.getElem?_append_left hlb] using h2

/-- Claim C6: a 200 response with an undecodable body logs the dedicated
JSON-decode diagnostic and only it — no generic request-failure message of
either form appears — returns failure, and the run exits with status 1. -/
theorem parse_failure_diagnostic (c : Config) (body msg : String) :
    fetch_sentiment_data c (.response 200 body (.error msg)) =
      (false,
       ["🤖 Starting sentiment data fetch from " ++ (c.base_url ++ "/api/cron/sentiment-data"),
        "📡 Response status: " ++ toString 200,
        "❌ Failed to parse JSON response: " ++ msg]) ∧
    ("❌ Failed to parse JSON response: " ++ msg) ∈
      (fetch_sentiment_data c (.response 200 body (.error msg))).2 ∧
    (∀ m, ("❌ Request failed: " ++ m) ∉
      (fetch_sentiment_data c (.response 200 body (.error msg))).2) ∧
    (∀ n : Nat, ("❌ Request failed with status " ++ toString n) ∉
      (fetch_sentiment_data c (.response 200 body (.error msg))).2) ∧
    (∀ now env file c0 logs, load_config env file = (.ok c0, logs) →
      (main now env file (.response 200 body (.error msg))).1 = 1) := by
  have heq : fetch_sentiment_data c (.response 200 body (.error msg)) =
      (false,
       ["🤖 Starting sentiment data fetch from " ++ (c.base_url ++ "/api/cron/sentiment-data"),
        "📡 Response status: " ++ toString 200,
        "❌ Failed to parse JSON response: " ++ msg]) := rfl
  refine ⟨rfl, by simp [heq], ?_, ?_, ?_⟩
  · intro m hmem
    have e1 : ("❌ Request failed: " ++ m) ≠
        "🤖 Starting sentiment data fetch from " ++ (c.base_url ++ "/api/cron/sentiment-data") :=
      append_ne_append_at 0 m _ (by decide) (by decide) (by decide)
    have e2 : ("❌ Request failed: " ++ m) ≠ "📡 Response status: " ++ toString 200 :=
      append_ne_append_at 0 m (toString 200) (by decide) (by decide) (by decide)
    have e3 : ("❌ Request failed: " ++ m) ≠ "❌ Failed to parse JSON response: " ++ msg :=
      append_ne_append_at 2 m msg (by decide) (by decide) (by decide)
    rw [heq] at hmem
    simp only [List.mem_cons, List.not_mem_nil, or_false] at hmem
    rcases hmem with h | h | h
    · exact e1 h
    · exact e2 h
    · exact e3 h
  · intro n hmem
    have e1 : ("❌ Request failed with status " ++ toString n) ≠
        "🤖 Starting sentiment data fetch from " ++ (c.base_url ++ "/api/cron/sentiment-data") :=
      append_ne_append_at 0 (toString n) _ (by decide) (by decide) (by decide)
    have e2 : ("❌ Request failed with status " ++ toString n) ≠
        "📡 Response status: " ++ toString 200 :=
      append_ne_append_at 0 (toString n) (toString 200) (by decide) (by decide) (by decide)
    have e3 : ("❌ Request failed with status " ++ toString n) ≠
        "❌ Failed to parse JSON response: " ++ msg :=
      append_ne_append_at 2 (toString n) msg (by decide) (by decide) (by decide)
    rw [heq] at hmem
    simp only [List.mem_cons, List.not_mem_nil, or_false] at hmem
    rcases hmem with h | h | h
    · exact e1 h
    · exact e2 h
    · exact e3 h
  · intro now env file c0 logs h
    simp [main, h, fetch_sentiment_data]

/-- Claim C6 witness: a concrete 200 response with a non-JSON body logs the
dedicated parse diagnostic and the run exits with status 1. -/
theorem parse_failure_diagnostic_witness :
    ("❌ Failed to parse JSON response: " ++ "Expecting value") ∈
      (fetch_sentiment_data { base_url := "http://x", cron_secret := "s", timeout := 300 }
        (.response 200 "not json" (.error "Expecting value"))).2 ∧
    (main "T" [("BASE_URL", "http://x"), ("CRON_SECRET", "s")] none
      (.response 200 "not json" (.error "Expecting value"))).1 = 1 := by
  have h := parse_failure_diagnostic
    { base_url := "http://x", cron_secret := "s", timeout := 300 } "not json" "Expecting value"
  exact ⟨h.2.1, h.2.2.2.2 "T" [("BASE_URL", "http://x"), ("CRON_SECRET", "s")] none
    { base_url := "http://x", cron_secret := "s", timeout := 300 } [] rfl⟩

/-- Claim C7: a timeout logs the configured timeout duration and returns
failure, and each invocation makes exactly one request attempt: exactly the
front of the prepared outcome queue is consumed, and the result never depends
on outcomes beyond the first. -/
theorem timeout_logged_single_attempt (c : Config) (o : HttpOutcome)
    (rest rest' : List HttpOutcome) :
    (fetch_sentiment_data c .timeout).1 = false ∧
    ("⏰ Request timed out after " ++ toString c.timeout ++ " seconds") ∈
      (fetch_sentiment_data c .timeout).2 ∧
    (fetchAttempts c (o :: rest)).2 = rest ∧
    (fetchAttempts c (o :: rest)).1 = (fetchAttempts c (o :: rest')).1 := by
  exact ⟨rfl, by simp [fetch_sentiment_data], rfl, rfl⟩

end SentimentCron
